import Mathlib

/-!
Verification of the lakehouse data-scripts repository.

This file gives a shallow embedding of the Python sources under
data-scripts/ and proves the behavioural claims about them.

Modelling conventions:
- machine integers are Nat; money amounts are modelled in cents, since
  every monetary value in the code is rounded to two decimal places
  (round(x, 2)) and all arithmetic on such values is exact in cents;
- calls into the random module consume values from an ambient stream
  g : Nat -> Nat, one value per call, in program order;
- calls into external client libraries (trino, psycopg2, redis, minio)
  are modelled by oracle arguments giving the outcome of each call:
  Except String A for a call that can raise, with error carrying the
  exception message;
- Python code that can raise is embedded as an Except-valued function;
  code wrapped in try/except blocks that swallow every exception is
  embedded as a total function (or an Except-valued function proved to
  always return ok);
- dates are environment dependent (datetime.now()), so an order date is
  represented by its random day offset from the base date.
-/

namespace Lakehouse

/-- Single-quote character, used when rendering SQL value literals. -/
def sq : String := (Char.ofNat 39).toString

/-- Left-pad the decimal rendering of n with zeros to the given width,
mirroring the Python format specifier 0<width>d (wider numbers are not
truncated). -/
def padZeros (width : Nat) (n : Nat) : String :=
  let s := toString n
  String.mk (List.replicate (width - s.length) (Char.ofNat 48)) ++ s

/-- random.choice over a nonempty list: pick the element indexed by the
drawn value reduced modulo the list length. -/
def pyChoice (xs : List String) (r : Nat) : String :=
  xs.getD (r % xs.length) ""

/-- random.randint(a, b): an integer in [a, b], both ends inclusive. -/
def pyRandint (a b r : Nat) : Nat :=
  a + r % (b - a + 1)

/-- round(random.uniform(lo, hi), 2) in cents: a value in
[100 * lo, 100 * hi], both ends inclusive. -/
def pyUniformCents (lo hi r : Nat) : Nat :=
  lo + r % (hi - lo + 1)

/-! ## generate_sample_data (create_iceberg_table.py) -/

/-- The fixed product list of generate_sample_data. -/
def products : List String :=
  ["Laptop", "Smartphone", "Tablet", "Headphones", "Keyboard",
   "Mouse", "Monitor", "Speaker", "Camera", "Watch"]

/-- The fixed category list of generate_sample_data. -/
def categories : List String :=
  ["Electronics", "Computers", "Accessories", "Audio", "Photography"]

/-- The fixed region list of generate_sample_data. -/
def regions : List String :=
  ["US", "EU", "ASIA", "LATAM", "AFRICA"]

/-- One generated e-commerce record. Monetary fields are in cents and
the order date is its day offset from base_date (now minus 365 days). -/
structure OrderRecord where
  order_id : String
  product_name : String
  category : String
  quantity : Nat
  unit_price_cents : Nat
  region : String
  order_date_offset : Nat
  customer_id : String
  total_amount_cents : Nat
deriving DecidableEq

/-- A default record, used only as the getD fallback. -/
def defaultRecord : OrderRecord :=
  ⟨"", "", "", 0, 0, "", 0, "", 0⟩

/-- The record built in iteration i of generate_sample_data.  The seven
random calls of one iteration consume g (7 i), ..., g (7 i + 6) in
program order.  total_amount is round(quantity * unit_price, 2), which
is exact in cents. -/
def mkRecord (g : Nat → Nat) (i : Nat) : OrderRecord :=
  let quantity := pyRandint 1 10 (g (7 * i + 2))
  let unitPriceCents := pyUniformCents 1000 100000 (g (7 * i + 3))
  { order_id := "ORD-" ++ padZeros 6 (i + 1)
    product_name := pyChoice products (g (7 * i))
    category := pyChoice categories (g (7 * i + 1))
    quantity := quantity
    unit_price_cents := unitPriceCents
    region := pyChoice regions (g (7 * i + 4))
    order_date_offset := pyRandint 0 365 (g (7 * i + 5))
    customer_id := "CUST-" ++ padZeros 4 (pyRandint 1 1000 (g (7 * i + 6)))
    total_amount_cents := quantity * unitPriceCents }

/-- generate_sample_data(num_records): one record per loop iteration. -/
def generate_sample_data (n : Nat) (g : Nat → Nat) : List OrderRecord :=
  (List.range n).map (mkRecord g)

/-! ## insert_data_batch (create_iceberg_table.py) -/

/-- The slice loop of insert_data_batch: for i in range(0, len(df),
batch_size) take df.iloc[i : i + batch_size].  A zero step would raise
in Python, hence the guard; chunkRows is only reached with b > 0. -/
def chunkRows {α : Type} (b : Nat) : List α → List (List α)
  | [] => []
  | x :: xs =>
    if _h : b = 0 then []
    else (x :: xs).take b :: chunkRows b ((x :: xs).drop b)
termination_by l => l.length
decreasing_by
  simp only [List.length_drop, List.length_cons]
  omega

/-- Python str() of a two-decimal float value given in cents: trailing
zeros of the fraction are not printed, but at least one fraction digit
always is (str(51.0) is 51.0, str(25.5) is 25.5, str(999.99) is
999.99). -/
def floatRepr (cents : Nat) : String :=
  let whole := toString (cents / 100)
  let frac := cents % 100
  if frac = 0 then whole ++ ".0"
  else if frac % 10 = 0 then whole ++ "." ++ toString (frac / 10)
  else whole ++ "." ++ padZeros 2 frac

/-- The VALUES tuple built for one dataframe row by insert_data_batch.
The order date is rendered through its day offset. -/
def rowValuesSql (r : OrderRecord) : String :=
  "(" ++ sq ++ r.order_id ++ sq ++ ", " ++ sq ++ r.product_name ++ sq ++
  ", " ++ sq ++ r.category ++ sq ++ ", " ++ toString r.quantity ++ ", " ++
  floatRepr r.unit_price_cents ++ ", " ++ floatRepr r.total_amount_cents ++
  ", " ++ sq ++ r.region ++ sq ++ ", DATE " ++ sq ++ "base+" ++
  toString r.order_date_offset ++ sq ++ ", " ++ sq ++ r.customer_id ++ sq ++ ")"

/-- The INSERT statement built for one batch by insert_data_batch. -/
def insertSql (schema table : String) (batch : List OrderRecord) : String :=
  "\n        INSERT INTO iceberg." ++ schema ++ "." ++ table ++
  "\n        VALUES " ++ String.intercalate ", " (batch.map rowValuesSql) ++
  "\n        "

/-- insert_data_batch: slice the dataframe into consecutive batches and
build one INSERT statement per batch, in order.  batch_size = 0 makes
range raise ValueError in Python, modelled as none. -/
def insert_data_batch (schema table : String) (b : Nat)
    (rows : List OrderRecord) : Option (List String) :=
  if b = 0 then none
  else some ((chunkRows b rows).map (insertSql schema table))

/-! ## create_iceberg_table, verify_data, main (create_iceberg_table.py) -/

/-- The CREATE SCHEMA statement issued by main. -/
def createSchemaSql (schema : String) : String :=
  "CREATE SCHEMA IF NOT EXISTS iceberg." ++ schema

/-- The CREATE TABLE statement built by create_iceberg_table. -/
def createTableSql (schema table : String) : String :=
  "\n    CREATE TABLE IF NOT EXISTS iceberg." ++ schema ++ "." ++ table ++
  " (\n        order_id VARCHAR,\n        product_name VARCHAR,\n" ++
  "        category VARCHAR,\n        quantity INTEGER,\n" ++
  "        unit_price DECIMAL(10,2),\n        total_amount DECIMAL(10,2),\n" ++
  "        region VARCHAR,\n        order_date DATE,\n" ++
  "        customer_id VARCHAR\n    ) WITH (\n        format = " ++ sq ++
  "PARQUET" ++ sq ++ ",\n        location = " ++ sq ++ "s3://warehouse/" ++
  schema ++ "/" ++ table ++ "/" ++ sq ++ "\n    )\n    "

/-- The COUNT(*) verification query of verify_data. -/
def countSql (schema table : String) : String :=
  "SELECT COUNT(*) as row_count FROM iceberg." ++ schema ++ "." ++ table

/-- The LIMIT 5 sample query of verify_data. -/
def sampleSql (schema table : String) : String :=
  "SELECT * FROM iceberg." ++ schema ++ "." ++ table ++ " LIMIT 5"

/-- The GROUP BY aggregation query of verify_data. -/
def aggSql (schema table : String) : String :=
  "\n    SELECT \n        category,\n        COUNT(*) as order_count,\n" ++
  "        SUM(total_amount) as total_revenue,\n" ++
  "        AVG(total_amount) as avg_order_value\n    FROM iceberg." ++
  schema ++ "." ++ table ++ "\n    GROUP BY category\n" ++
  "    ORDER BY total_revenue DESC\n    "

/-- The methods the TrinoClient class of utils/clients.py defines
(besides the constructor): the conn property, execute_query,
execute_with_description, create_iceberg_table, show_tables,
describe_table and close. -/
def trinoClientMethods : List String :=
  ["conn", "execute_query", "execute_with_description",
   "create_iceberg_table", "show_tables", "describe_table", "close"]

/-- The client calls verify_data makes, as (method name, query) pairs,
in program order. -/
def verifyCalls (schema table : String) : List (String × String) :=
  [("fetchone", countSql schema table),
   ("fetchall", sampleSql schema table),
   ("fetchall", aggSql schema table)]

/-- The ordered (method name, SQL text) calls that main of
create_iceberg_table.py makes on its TrinoClient, with the scripted
configuration: schema sales, table ecommerce_orders, 2000 records,
batch size 200. -/
def mainCalls (g : Nat → Nat) : List (String × String) :=
  ("execute", createSchemaSql "sales") ::
  ("execute", createTableSql "sales" "ecommerce_orders") ::
  (((insert_data_batch "sales" "ecommerce_orders" 200
      (generate_sample_data 2000 g)).getD []).map
    (fun s => ("execute", s)) ++
   verifyCalls "sales" "ecommerce_orders")

/-- Run a call list against a client that provides the given method
names: Python attribute lookup raises AttributeError on the first call
whose method the client does not define, and no later call is made. -/
def runScript (methods : List String) :
    List (String × String) → Except String (List (String × String))
  | [] => Except.ok []
  | (m, q) :: rest =>
    if m ∈ methods then
      match runScript methods rest with
      | Except.ok t => Except.ok ((m, q) :: t)
      | Except.error e => Except.error e
    else Except.error ("AttributeError: " ++ m)

/-! ## ClientManager (utils/clients.py) -/

/-- The four services the ClientManager manages. -/
inductive Service
  | trino
  | postgres
  | redis
  | minio
deriving DecidableEq

/-- A constructed client object: its identity (allocation number) and
its lazily created underlying connection (None at construction). -/
structure PyClient where
  ctorId : Nat
  conn : Option Nat
deriving DecidableEq

/-- The ClientManager fields: one cached client slot per service, all
None at construction.  nextId is the allocator for client identities. -/
structure ClientManagerState where
  trino : Option PyClient
  postgres : Option PyClient
  redis : Option PyClient
  minio : Option PyClient
  nextId : Nat
deriving DecidableEq

/-- A freshly constructed ClientManager. -/
def initManager : ClientManagerState :=
  ⟨none, none, none, none, 0⟩

/-- The cached slot of a service. -/
def svcField (s : ClientManagerState) : Service → Option PyClient
  | Service.trino => s.trino
  | Service.postgres => s.postgres
  | Service.redis => s.redis
  | Service.minio => s.minio

/-- Overwrite the cached slot of a service. -/
def setSvcField (s : ClientManagerState) (svc : Service)
    (v : Option PyClient) : ClientManagerState :=
  match svc with
  | Service.trino => { s with trino := v }
  | Service.postgres => { s with postgres := v }
  | Service.redis => { s with redis := v }
  | Service.minio => { s with minio := v }

/-- One property access on the manager: return the cached client if the
slot is filled, otherwise construct a new client (with a fresh identity
and no connection), cache it and return it.  The Bool records whether a
construction happened. -/
def getClient (s : ClientManagerState) (svc : Service) :
    ClientManagerState × Nat × Bool :=
  match svcField s svc with
  | some c => (s, c.ctorId, false)
  | none =>
    ({ setSvcField s svc (some ⟨s.nextId, none⟩) with nextId := s.nextId + 1 },
     s.nextId, true)

/-- The underlying connection close call, which may raise. -/
def connClose (fails : Bool) : Except String Unit :=
  if fails then Except.error "close failed" else Except.ok ()

/-- TrinoClient.close and PostgresClient.close: when a connection is
cached, close it inside try/except; a failure is logged as a warning
(second component) and swallowed, and in that case _conn is not
cleared.  The function provably never returns an error. -/
def clientClose (c : PyClient) (fails : Bool) :
    Except String (PyClient × List String) :=
  match c.conn with
  | none => Except.ok (c, [])
  | some _ =>
    match connClose fails with
    | Except.ok _ => Except.ok ({ c with conn := none }, [])
    | Except.error e =>
      Except.ok (c, ["Error closing connection: " ++ e])

/-- Second half of close_all: close the cached PostgreSQL client when
present, then clear the redis and minio slots without any close call.
An exception escaping a client close would abort close_all, mirroring
Python; it is proved never to happen. -/
def closeAllPg (s : ClientManagerState) (calls : List Service)
    (warns : List String) (pFail : Bool) :
    Except String (ClientManagerState × List Service × List String) :=
  match s.postgres with
  | some c =>
    match clientClose c pFail with
    | Except.error e => Except.error e
    | Except.ok (_, w2) =>
      Except.ok ({ s with postgres := none, redis := none, minio := none },
                 calls ++ [Service.postgres], warns ++ w2)
  | none =>
    Except.ok ({ s with redis := none, minio := none }, calls, warns)

/-- ClientManager.close_all: call close() on the cached Trino and
PostgreSQL clients (when present) and clear all four slots; Redis and
minio clients are cleared without a close call.  Returns the new state,
the list of close() invocations made, and the warnings logged. -/
def close_all (s : ClientManagerState) (tFail pFail : Bool) :
    Except String (ClientManagerState × List Service × List String) :=
  match s.trino with
  | some c =>
    match clientClose c tFail with
    | Except.error e => Except.error e
    | Except.ok (_, w1) =>
      closeAllPg { s with trino := none } [Service.trino] w1 pFail
  | none => closeAllPg s [] [] pFail

/-- An operation on the ClientManager: a property access for one of the
four services, or close_all (with the outcome of the two underlying
connection closes). -/
inductive MgrOp
  | get (svc : Service)
  | closeAll (tFail pFail : Bool)
deriving DecidableEq

/-- One manager operation: the new state, the construction events it
caused, and the identity of the client a property access returned. -/
def mgrStep (s : ClientManagerState) (op : MgrOp) :
    ClientManagerState × List Service × Option (Service × Nat) :=
  match op with
  | MgrOp.get svc =>
    let r := getClient s svc
    (r.1, if r.2.2 then [svc] else [], some (svc, r.2.1))
  | MgrOp.closeAll tF pF =>
    match close_all s tF pF with
    | Except.ok (s2, _, _) => (s2, [], none)
    | Except.error _ => (s, [], none)

/-- The manager state after a sequence of operations. -/
def runState (s : ClientManagerState) : List MgrOp → ClientManagerState
  | [] => s
  | op :: ops => runState (mgrStep s op).1 ops

/-- The construction events of a sequence of operations, in order. -/
def runConstructions (s : ClientManagerState) : List MgrOp → List Service
  | [] => []
  | op :: ops =>
    (mgrStep s op).2.1 ++ runConstructions (mgrStep s op).1 ops

/-- The client identities returned by the property accesses of one
service along a sequence of operations, in order. -/
def runGetResults (svc : Service) (s : ClientManagerState) :
    List MgrOp → List Nat
  | [] => []
  | op :: ops =>
    (match (mgrStep s op).2.2 with
     | some (sv, cid) => if sv = svc then [cid] else []
     | none => []) ++ runGetResults svc (mgrStep s op).1 ops

/-- True when a sequence of operations contains no close_all. -/
def closeAllFree (ops : List MgrOp) : Bool :=
  ops.all (fun op =>
    match op with
    | MgrOp.closeAll _ _ => false
    | _ => true)

/-! ## ClientManager.health_check (utils/clients.py) -/

/-- The outcome of the four service probes health_check makes: the
trivial SELECT 1 queries, the Redis ping and the MinIO bucket_exists
call.  An error also covers a failure to construct that service client,
since the property access happens inside the same try block. -/
structure HealthEnv where
  trinoCheck : Except String Unit
  postgresCheck : Except String Unit
  redisCheck : Except String Unit
  minioCheck : Except String Unit

/-- One try/except health probe reduced to its boolean. -/
def tryCheck (r : Except String Unit) : Bool :=
  match r with
  | Except.ok _ => true
  | Except.error _ => false

/-- ClientManager.health_check: probe the four services in order, each
inside its own try/except, and collect service name to boolean.  The
dict is modelled as an association list in insertion order. -/
def health_check (env : HealthEnv) :
    Except String (List (String × Bool)) :=
  Except.ok
    ([("trino", tryCheck env.trinoCheck)] ++
     [("postgres", tryCheck env.postgresCheck)] ++
     [("redis", tryCheck env.redisCheck)] ++
     [("minio", tryCheck env.minioCheck)])

/-! ## run_analysis_queries (analyze_data.py) -/

/-- Query 1 of run_analysis_queries: basic table statistics. -/
def statsQuery (ft : String) : String :=
  "\n    SELECT \n        COUNT(*) as total_records,\n" ++
  "        COUNT(DISTINCT customer_id) as unique_customers,\n" ++
  "        COUNT(DISTINCT product_name) as unique_products,\n" ++
  "        MIN(order_date) as earliest_order,\n" ++
  "        MAX(order_date) as latest_order,\n" ++
  "        SUM(total_amount) as total_revenue,\n" ++
  "        AVG(total_amount) as avg_order_value\n    FROM " ++ ft ++ "\n    "

/-- Query 2 of run_analysis_queries: revenue by category. -/
def categoryQuery (ft : String) : String :=
  "\n    SELECT \n        category,\n        COUNT(*) as order_count,\n" ++
  "        SUM(total_amount) as total_revenue,\n" ++
  "        AVG(total_amount) as avg_order_value,\n" ++
  "        SUM(quantity) as total_quantity\n    FROM " ++ ft ++
  "\n    GROUP BY category\n    ORDER BY total_revenue DESC\n    "

/-- Query 3 of run_analysis_queries: regional performance. -/
def regionalQuery (ft : String) : String :=
  "\n    SELECT \n        region,\n        COUNT(*) as order_count,\n" ++
  "        SUM(total_amount) as total_revenue,\n" ++
  "        AVG(total_amount) as avg_order_value,\n" ++
  "        COUNT(DISTINCT customer_id) as unique_customers\n    FROM " ++
  ft ++ "\n    GROUP BY region\n    ORDER BY total_revenue DESC\n    "

/-- Query 4 of run_analysis_queries: monthly trend. -/
def monthlyQuery (ft : String) : String :=
  "\n    SELECT \n        DATE_FORMAT(order_date, " ++ sq ++ "%Y-%m" ++ sq ++
  ") as month,\n        COUNT(*) as order_count,\n" ++
  "        SUM(total_amount) as monthly_revenue,\n" ++
  "        AVG(total_amount) as avg_order_value\n    FROM " ++ ft ++
  "\n    GROUP BY DATE_FORMAT(order_date, " ++ sq ++ "%Y-%m" ++ sq ++
  ")\n    ORDER BY month\n    "

/-- Query 5 of run_analysis_queries: top products. -/
def productQuery (ft : String) : String :=
  "\n    SELECT \n        product_name,\n        category,\n" ++
  "        COUNT(*) as order_count,\n" ++
  "        SUM(quantity) as total_quantity,\n" ++
  "        SUM(total_amount) as total_revenue,\n" ++
  "        AVG(unit_price) as avg_price\n    FROM " ++ ft ++
  "\n    GROUP BY product_name, category\n" ++
  "    ORDER BY total_revenue DESC\n    LIMIT 10\n    "

/-- Query 6 of run_analysis_queries: top customers. -/
def customerQuery (ft : String) : String :=
  "\n    SELECT \n        customer_id,\n        COUNT(*) as order_count,\n" ++
  "        SUM(total_amount) as total_spent,\n" ++
  "        AVG(total_amount) as avg_order_value,\n" ++
  "        SUM(quantity) as total_items\n    FROM " ++ ft ++
  "\n    GROUP BY customer_id\n    ORDER BY total_spent DESC\n" ++
  "    LIMIT 10\n    "

/-- The outcome of fetching and formatting the result of each of the
six analysis queries (a formatting failure, such as a missing result
key, raises inside the same try block as the fetch). -/
structure AnalysisOracle where
  q1 : Except String Unit
  q2 : Except String Unit
  q3 : Except String Unit
  q4 : Except String Unit
  q5 : Except String Unit
  q6 : Except String Unit

/-- One analysis block: issue the query, then either format the result
or catch the exception and log an error line. -/
def analysisBlock (label : String) (q : String)
    (outcome : Except String Unit) : List String × List String :=
  ([q],
   match outcome with
   | Except.ok _ => []
   | Except.error e => [label ++ e])

/-- run_analysis_queries: the six blocks in order, each in its own
try/except.  Returns the queries issued and the error lines logged; a
result of ok models that the function itself never raises. -/
def run_analysis_queries (table schema : String) (o : AnalysisOracle) :
    Except String (List String × List String) :=
  let ft := "iceberg." ++ schema ++ "." ++ table
  let b1 := analysisBlock "Failed to get basic stats: " (statsQuery ft) o.q1
  let b2 := analysisBlock "Failed to get category analysis: "
    (categoryQuery ft) o.q2
  let b3 := analysisBlock "Failed to get regional analysis: "
    (regionalQuery ft) o.q3
  let b4 := analysisBlock "Failed to get monthly analysis: "
    (monthlyQuery ft) o.q4
  let b5 := analysisBlock "Failed to get product analysis: "
    (productQuery ft) o.q5
  let b6 := analysisBlock "Failed to get customer analysis: "
    (customerQuery ft) o.q6
  Except.ok
    (b1.1 ++ b2.1 ++ b3.1 ++ b4.1 ++ b5.1 ++ b6.1,
     b1.2 ++ b2.2 ++ b3.2 ++ b4.2 ++ b5.2 ++ b6.2)

/-! ## CLI ingest command (utils/cli.py) -/

/-- An observable effect of a CLI command. -/
inductive CliEffect
  | print (msg : String)
  | clientCall (svc : String)
  | exit (code : Nat)
deriving DecidableEq

/-- Python truthiness of a click option value: not source is true when
the option is absent and also when it is the empty string. -/
def pyFalsy (o : Option String) : Bool :=
  match o with
  | none => true
  | some s => s.isEmpty

/-- The ingest command: print the banner; if either option is falsy,
print the usage error and exit(1); otherwise print the chosen format,
the target table and the not-implemented notice.  No branch touches any
external service client. -/
def ingest (source target : Option String) : List CliEffect :=
  [CliEffect.print "Data Ingestion"] ++
  (if pyFalsy source || pyFalsy target then
    [CliEffect.print "Please specify both --source and --target",
     CliEffect.print "Example: lakehouse-ingest --source=csv --target=my_table",
     CliEffect.exit 1]
  else
    [CliEffect.print ("Source format: " ++ source.getD ""),
     CliEffect.print ("Target table: " ++ target.getD ""),
     CliEffect.print "Ingestion functionality not yet implemented"])

/-! ## MinIOClient (utils/clients.py) -/

/-- Python: bucket = bucket or settings.minio_bucket.  A missing or
empty bucket argument falls back to the configured default. -/
def resolveBucket (defaultBucket : String) (b : Option String) : String :=
  match b with
  | none => defaultBucket
  | some s => if s.isEmpty then defaultBucket else s

/-- MinIOClient.object_exists: stat the object; ok means True, any
exception means False.  The stat oracle maps (bucket, object name) to
the outcome of stat_object. -/
def object_exists (stat : String → String → Except String Unit)
    (objectName : String) (bucket : Option String)
    (defaultBucket : String) : Except String Bool :=
  match stat (resolveBucket defaultBucket bucket) objectName with
  | Except.ok _ => Except.ok true
  | Except.error _ => Except.ok false

/-- MinIOClient.upload_file: fput the object; on failure log and
re-raise the same exception. -/
def upload_file (fput : String → String → String → Except String Unit)
    (filePath objectName : String) (bucket : Option String)
    (defaultBucket : String) : Except String Unit :=
  match fput (resolveBucket defaultBucket bucket) objectName filePath with
  | Except.ok _ => Except.ok ()
  | Except.error e => Except.error e

/-- MinIOClient.delete_object: remove the object; on failure log and
re-raise the same exception. -/
def delete_object (remove : String → String → Except String Unit)
    (objectName : String) (bucket : Option String)
    (defaultBucket : String) : Except String Unit :=
  match remove (resolveBucket defaultBucket bucket) objectName with
  | Except.ok _ => Except.ok ()
  | Except.error e => Except.error e

/-! ## PostgresClient (utils/clients.py) -/

/-- The parameter argument of PostgresClient.execute_insert: absent, a
single tuple, or a list of tuples (the batch case). -/
inductive PgParams
  | noParams
  | single (t : List String)
  | many (ts : List (List String))
deriving DecidableEq

/-- A connection-level action of the PostgreSQL client. -/
inductive PgAction
  | cursorExecute (q : String)
  | cursorExecuteMany (q : String) (batchLen : Nat)
  | commit
  | rollback
deriving DecidableEq

/-- PostgresClient.execute_insert: run execute or executemany on a
cursor, then commit, all inside try; on any exception roll back and
re-raise.  cursorFails gives the outcome of the cursor work; commit and
rollback themselves are modelled as succeeding.  Returns the ordered
connection actions and the result. -/
def execute_insert (q : String) (params : PgParams) (cursorFails : Bool) :
    List PgAction × Except String Unit :=
  let execAct :=
    match params with
    | PgParams.many ts => PgAction.cursorExecuteMany q ts.length
    | _ => PgAction.cursorExecute q
  if cursorFails then
    ([execAct, PgAction.rollback], Except.error "insert failed")
  else
    ([execAct, PgAction.commit], Except.ok ())

/-- PostgresClient.execute_query: run the SELECT on a cursor inside
try; on any exception roll back and re-raise; no commit on success. -/
def execute_query (q : String) (cursorFails : Bool) :
    List PgAction × Except String Unit :=
  if cursorFails then
    ([PgAction.cursorExecute q, PgAction.rollback],
     Except.error "query failed")
  else
    ([PgAction.cursorExecute q], Except.ok ())

/-! ## Helper lemmas -/

theorem chunkRows_nil {α : Type} (b : Nat) :
    chunkRows b ([] : List α) = [] := by
  simp [chunkRows]

theorem chunkRows_cons {α : Type} (b : Nat) (hb : b ≠ 0) (l : List α)
    (hl : l ≠ []) :
    chunkRows b l = l.take b :: chunkRows b (l.drop b) := by
  cases l with
  | nil => exact absurd rfl hl
  | cons x xs => simp [chunkRows, hb]

theorem chunkRows_length {α : Type} (b : Nat) (hb : 0 < b) (l : List α) :
    (chunkRows b l).length = (l.length + b - 1) / b := by
  generalize hn : l.length = n
  induction n using Nat.strong_induction_on generalizing l with
  | _ n ih =>
    cases l with
    | nil =>
      simp only [List.length_nil] at hn
      subst hn
      simp only [chunkRows, List.length_nil]
      rw [Nat.div_eq_of_lt (by omega)]
    | cons x xs =>
      have hb0 : b ≠ 0 := by omega
      rw [chunkRows_cons b hb0 (x :: xs) (by simp)]
      simp only [List.length_cons] at hn
      have hdlen : ((x :: xs).drop b).length = xs.length + 1 - b := by
        simp
      have hrec := ih ((x :: xs).drop b).length
        (by rw [hdlen]; omega) ((x :: xs).drop b) rfl
      rw [List.length_cons, hrec, hdlen, ← hn]
      have key : (xs.length + 1 - b + b - 1) / b = (xs.length + 1 - 1) / b := by
        rcases le_or_lt (xs.length + 1) b with h | h
        · have h1 : xs.length + 1 - b + b - 1 = b - 1 := by omega
          rw [h1, Nat.div_eq_of_lt (by omega), Nat.div_eq_of_lt (by omega)]
        · congr 1
          omega
      rw [key]
      have h2 : xs.length + 1 + b - 1 = (xs.length + 1 - 1) + b := by omega
      rw [h2, Nat.add_div_right _ hb]

theorem chunkRows_flatten {α : Type} (b : Nat) (hb : 0 < b) (l : List α) :
    (chunkRows b l).flatten = l := by
  generalize hn : l.length = n
  induction n using Nat.strong_induction_on generalizing l with
  | _ n ih =>
    cases l with
    | nil => simp [chunkRows]
    | cons x xs =>
      have hb0 : b ≠ 0 := by omega
      rw [chunkRows_cons b hb0 (x :: xs) (by simp)]
      simp only [List.length_cons] at hn
      have hdlen : ((x :: xs).drop b).length = xs.length + 1 - b := by
        simp
      rw [List.flatten_cons,
        ih ((x :: xs).drop b).length (by rw [hdlen]; omega)
          ((x :: xs).drop b) rfl,
        List.take_append_drop]

theorem chunkRows_getD {α : Type} (b : Nat) (hb : 0 < b) (l : List α)
    (k : Nat) (hk : k < (chunkRows b l).length) :
    (chunkRows b l).getD k [] = (l.drop (k * b)).take b := by
  induction k generalizing l with
  | zero =>
    cases l with
    | nil => simp [chunkRows] at hk
    | cons x xs =>
      have hb0 : b ≠ 0 := by omega
      rw [chunkRows_cons b hb0 (x :: xs) (by simp)]
      simp
  | succ k ihk =>
    cases l with
    | nil => simp [chunkRows] at hk
    | cons x xs =>
      have hb0 : b ≠ 0 := by omega
      rw [chunkRows_cons b hb0 (x :: xs) (by simp)] at hk ⊢
      simp only [List.getD_cons_succ]
      rw [ihk ((x :: xs).drop b) (by simpa using hk), List.drop_drop]
      congr 2
      ring

theorem chunkRows_getD_length {α : Type} (b : Nat) (hb : 0 < b)
    (l : List α) (k : Nat) (hk : k + 1 < (chunkRows b l).length) :
    ((chunkRows b l).getD k []).length = b := by
  rw [chunkRows_getD b hb l k (by omega)]
  simp only [List.length_take, List.length_drop]
  rw [chunkRows_length b hb l] at hk
  have h2 : k + 2 ≤ (l.length + b - 1) / b := by omega
  have h3 : (k + 2) * b ≤ l.length + b - 1 :=
    (Nat.le_div_iff_mul_le hb).mp h2
  have h3x : k * b + b + b ≤ l.length + b - 1 := by
    calc k * b + b + b = (k + 2) * b := by ring
    _ ≤ l.length + b - 1 := h3
  omega

theorem insert_data_batch_eq (schema table : String) (b : Nat)
    (hb : b ≠ 0) (rows : List OrderRecord) :
    insert_data_batch schema table b rows =
      some ((chunkRows b rows).map (insertSql schema table)) := by
  simp [insert_data_batch, hb]

theorem generate_sample_data_length (n : Nat) (g : Nat → Nat) :
    (generate_sample_data n g).length = n := by
  simp [generate_sample_data]

/-! ## Claim theorems -/

/-- Claim C2: for every dataframe and every batch size b > 0,
insert_data_batch issues exactly ceil(n / b) INSERT statements, one per
slice; the k-th slice (0-based k) is exactly the consecutive run of
rows from index k b to min((k + 1) b, n) - 1 in original order, their
concatenation is the whole dataframe (so every row appears in exactly
one INSERT), and every batch except possibly the last has exactly b
rows. -/
theorem insert_data_batch_spec (schema table : String)
    (rows : List OrderRecord) (b : Nat) (hb : 0 < b) :
    insert_data_batch schema table b rows =
      some ((chunkRows b rows).map (insertSql schema table)) ∧
    ((chunkRows b rows).map (insertSql schema table)).length =
      (rows.length + b - 1) / b ∧
    (chunkRows b rows).flatten = rows ∧
    (∀ k, k < (chunkRows b rows).length →
      (chunkRows b rows).getD k [] = (rows.drop (k * b)).take b) ∧
    (∀ k, k + 1 < (chunkRows b rows).length →
      ((chunkRows b rows).getD k []).length = b) := by
  refine ⟨insert_data_batch_eq schema table b (by omega) rows, ?_, ?_, ?_, ?_⟩
  · rw [List.length_map, chunkRows_length b hb rows]
  · exact chunkRows_flatten b hb rows
  · exact fun k hk => chunkRows_getD b hb rows k hk
  · exact fun k hk => chunkRows_getD_length b hb rows k hk

/-- Witness for C2 at rows = 5 generated records and batch size 2. -/
theorem insert_data_batch_spec_witness :
    0 < 2 ∧
    (insert_data_batch "sales" "orders" 2
        (generate_sample_data 5 (fun k => k)) =
      some ((chunkRows 2 (generate_sample_data 5 (fun k => k))).map
        (insertSql "sales" "orders")) ∧
    ((chunkRows 2 (generate_sample_data 5 (fun k => k))).map
        (insertSql "sales" "orders")).length =
      ((generate_sample_data 5 (fun k => k)).length + 2 - 1) / 2 ∧
    (chunkRows 2 (generate_sample_data 5 (fun k => k))).flatten =
      generate_sample_data 5 (fun k => k) ∧
    (∀ k, k < (chunkRows 2 (generate_sample_data 5 (fun k => k))).length →
      (chunkRows 2 (generate_sample_data 5 (fun k => k))).getD k [] =
        ((generate_sample_data 5 (fun k => k)).drop (k * 2)).take 2) ∧
    (∀ k, k + 1 < (chunkRows 2 (generate_sample_data 5 (fun k => k))).length →
      ((chunkRows 2 (generate_sample_data 5 (fun k => k))).getD k []).length = 2)) :=
  ⟨by decide,
   insert_data_batch_spec "sales" "orders"
     (generate_sample_data 5 (fun k => k)) 2 (by decide)⟩

theorem pyChoice_mem (xs : List String) (r : Nat) (h : xs ≠ []) :
    pyChoice xs r ∈ xs := by
  unfold pyChoice
  have hlen : 0 < xs.length := List.length_pos.mpr h
  have hlt : r % xs.length < xs.length := Nat.mod_lt _ hlen
  rw [List.getD_eq_getElem xs "" hlt]
  exact List.getElem_mem hlt

theorem generate_sample_data_getD (n : Nat) (g : Nat → Nat) (i : Nat)
    (h : i < n) :
    (generate_sample_data n g).getD i defaultRecord = mkRecord g i := by
  unfold generate_sample_data
  have hlen : i < ((List.range n).map (mkRecord g)).length := by
    simpa using h
  rw [List.getD_eq_getElem _ _ hlen, List.getElem_map, List.getElem_range]

theorem mkRecord_props (g : Nat → Nat) (i : Nat) :
    (mkRecord g i).total_amount_cents =
      (mkRecord g i).quantity * (mkRecord g i).unit_price_cents ∧
    1 ≤ (mkRecord g i).quantity ∧ (mkRecord g i).quantity ≤ 10 ∧
    1000 ≤ (mkRecord g i).unit_price_cents ∧
    (mkRecord g i).unit_price_cents ≤ 100000 ∧
    (mkRecord g i).product_name ∈ products ∧
    (mkRecord g i).category ∈ categories ∧
    (mkRecord g i).region ∈ regions ∧
    (mkRecord g i).order_id = "ORD-" ++ padZeros 6 (i + 1) := by
  refine ⟨rfl, ?_, ?_, ?_, ?_, ?_, ?_, ?_, rfl⟩
  · simp [mkRecord, pyRandint]
  · show 1 + g (7 * i + 2) % (10 - 1 + 1) ≤ 10
    have := Nat.mod_lt (g (7 * i + 2)) (show 0 < 10 - 1 + 1 by norm_num)
    omega
  · simp [mkRecord, pyUniformCents]
  · show 1000 + g (7 * i + 3) % (100000 - 1000 + 1) ≤ 100000
    have := Nat.mod_lt (g (7 * i + 3))
      (show 0 < 100000 - 1000 + 1 by norm_num)
    omega
  · exact pyChoice_mem products _ (by simp [products])
  · exact pyChoice_mem categories _ (by simp [categories])
  · exact pyChoice_mem regions _ (by simp [regions])

/-- Claim C4: generate_sample_data(n) returns exactly n records, and
every record satisfies: total_amount = quantity * unit_price (exactly,
in cents), quantity in [1, 10], unit_price in [10.00, 1000.00] (in
cents: [1000, 100000]), product_name, category and region drawn from
the fixed candidate lists, and order_id is the string ORD- followed by
the 1-based row index zero-padded to six digits. -/
theorem generate_sample_data_spec (n : Nat) (g : Nat → Nat) :
    (generate_sample_data n g).length = n ∧
    ∀ i, i < n →
      ((generate_sample_data n g).getD i defaultRecord).total_amount_cents =
        ((generate_sample_data n g).getD i defaultRecord).quantity *
          ((generate_sample_data n g).getD i defaultRecord).unit_price_cents ∧
      1 ≤ ((generate_sample_data n g).getD i defaultRecord).quantity ∧
      ((generate_sample_data n g).getD i defaultRecord).quantity ≤ 10 ∧
      1000 ≤ ((generate_sample_data n g).getD i defaultRecord).unit_price_cents ∧
      ((generate_sample_data n g).getD i defaultRecord).unit_price_cents ≤ 100000 ∧
      ((generate_sample_data n g).getD i defaultRecord).product_name ∈ products ∧
      ((generate_sample_data n g).getD i defaultRecord).category ∈ categories ∧
      ((generate_sample_data n g).getD i defaultRecord).region ∈ regions ∧
      ((generate_sample_data n g).getD i defaultRecord).order_id =
        "ORD-" ++ padZeros 6 (i + 1) := by
  refine ⟨generate_sample_data_length n g, fun i h => ?_⟩
  rw [generate_sample_data_getD n g i h]
  exact mkRecord_props g i

/-- Witness for C4 at n = 3 and the identity random stream, projected
at row index 1. -/
theorem generate_sample_data_spec_witness :
    (generate_sample_data 3 (fun k => k)).length = 3 ∧
    (1 < 3 →
      ((generate_sample_data 3 (fun k => k)).getD 1 defaultRecord).total_amount_cents =
        ((generate_sample_data 3 (fun k => k)).getD 1 defaultRecord).quantity *
          ((generate_sample_data 3 (fun k => k)).getD 1 defaultRecord).unit_price_cents ∧
      1 ≤ ((generate_sample_data 3 (fun k => k)).getD 1 defaultRecord).quantity ∧
      ((generate_sample_data 3 (fun k => k)).getD 1 defaultRecord).quantity ≤ 10 ∧
      1000 ≤ ((generate_sample_data 3 (fun k => k)).getD 1 defaultRecord).unit_price_cents ∧
      ((generate_sample_data 3 (fun k => k)).getD 1 defaultRecord).unit_price_cents ≤ 100000 ∧
      ((generate_sample_data 3 (fun k => k)).getD 1 defaultRecord).product_name ∈ products ∧
      ((generate_sample_data 3 (fun k => k)).getD 1 defaultRecord).category ∈ categories ∧
      ((generate_sample_data 3 (fun k => k)).getD 1 defaultRecord).region ∈ regions ∧
      ((generate_sample_data 3 (fun k => k)).getD 1 defaultRecord).order_id =
        "ORD-" ++ padZeros 6 (1 + 1)) :=
  ⟨(generate_sample_data_spec 3 (fun k => k)).1,
   (generate_sample_data_spec 3 (fun k => k)).2 1⟩

theorem map_fst_pair {α : Type} (c : String) (l : List α) :
    (l.map (fun x => (c, x))).map Prod.fst = List.replicate l.length c := by
  induction l with
  | nil => rfl
  | cons x xs ih => simp [ih, List.replicate_succ]

theorem verifyCalls_map_fst (schema table : String) :
    (verifyCalls schema table).map Prod.fst =
      ["fetchone", "fetchall", "fetchall"] := rfl

theorem mainCalls_head (g : Nat → Nat) :
    mainCalls g = ("execute", createSchemaSql "sales") ::
      ("execute", createTableSql "sales" "ecommerce_orders") ::
      (((chunkRows 200 (generate_sample_data 2000 g)).map
          (insertSql "sales" "ecommerce_orders")).map
        (fun s => ("execute", s)) ++
       verifyCalls "sales" "ecommerce_orders") := by
  rw [mainCalls,
    insert_data_batch_eq "sales" "ecommerce_orders" 200 (by norm_num)
      (generate_sample_data 2000 g)]
  rfl

theorem runScript_mainCalls (g : Nat → Nat) :
    runScript trinoClientMethods (mainCalls g) =
      Except.error "AttributeError: execute" := by
  rw [mainCalls_head g]
  simp only [runScript]
  rw [if_neg (by decide : "execute" ∉ trinoClientMethods)]
  rfl

theorem mainCalls_map_fst (g : Nat → Nat) :
    (mainCalls g).map Prod.fst =
      ["execute", "execute"] ++ List.replicate 10 "execute" ++
        ["fetchone", "fetchall", "fetchall"] := by
  rw [mainCalls_head g]
  simp only [List.map_cons, List.map_append, map_fst_pair,
    List.length_map, verifyCalls_map_fst]
  rw [chunkRows_length 200 (by norm_num) (generate_sample_data 2000 g),
    generate_sample_data_length 2000 g]
  norm_num

/-- Claim C1 (code bug evidence): the main routine of
create_iceberg_table.py invokes the methods execute, fetchone and
fetchall on its TrinoClient, but the TrinoClient class of
utils/clients.py defines none of them, so running main against the
real client raises AttributeError on its very first call (the CREATE
SCHEMA statement) and issues no SQL at all.  The intended call order
(the one the mocked unit tests assert) is: one CREATE SCHEMA execute,
one CREATE TABLE execute, ten batched INSERT executes (2000 records at
batch size 200), then fetchone and two fetchall verification calls,
each statement built purely by string templating. -/
theorem main_trino_method_mismatch :
    (∀ g : Nat → Nat,
      runScript trinoClientMethods (mainCalls g) =
        Except.error "AttributeError: execute") ∧
    "execute" ∉ trinoClientMethods ∧
    "fetchone" ∉ trinoClientMethods ∧
    "fetchall" ∉ trinoClientMethods ∧
    ∀ g : Nat → Nat,
      (mainCalls g).map Prod.fst =
        ["execute", "execute"] ++ List.replicate 10 "execute" ++
          ["fetchone", "fetchall", "fetchall"] :=
  ⟨runScript_mainCalls, by decide, by decide, by decide, mainCalls_map_fst⟩

theorem tryCheck_true_iff (r : Except String Unit) :
    tryCheck r = true ↔ r = Except.ok () := by
  cases r with
  | ok u => cases u; simp [tryCheck]
  | error e => simp [tryCheck]

/-- Claim C3: health_check always returns (never raises) an association
list whose keys are exactly trino, postgres, redis, minio in that
order; each value is true exactly when the corresponding probe
(including client construction, which happens inside the same try
block) completes without raising; the four probes are independent, so
one failing outcome never affects another entry. -/
theorem health_check_spec (env : HealthEnv) :
    ∃ hs, health_check env = Except.ok hs ∧
      hs.map Prod.fst = ["trino", "postgres", "redis", "minio"] ∧
      hs.lookup "trino" = some (tryCheck env.trinoCheck) ∧
      hs.lookup "postgres" = some (tryCheck env.postgresCheck) ∧
      hs.lookup "redis" = some (tryCheck env.redisCheck) ∧
      hs.lookup "minio" = some (tryCheck env.minioCheck) ∧
      (tryCheck env.trinoCheck = true ↔ env.trinoCheck = Except.ok ()) ∧
      (tryCheck env.postgresCheck = true ↔ env.postgresCheck = Except.ok ()) ∧
      (tryCheck env.redisCheck = true ↔ env.redisCheck = Except.ok ()) ∧
      (tryCheck env.minioCheck = true ↔ env.minioCheck = Except.ok ()) := by
  refine ⟨_, rfl, rfl, ?_, ?_, ?_, ?_,
    tryCheck_true_iff _, tryCheck_true_iff _,
    tryCheck_true_iff _, tryCheck_true_iff _⟩ <;> rfl

/-- Witness for C3 with Trino and minio probes failing. -/
theorem health_check_spec_witness :
    ∃ hs,
      health_check
        ⟨Except.error "conn refused", Except.ok (),
         Except.ok (), Except.error "no bucket"⟩ = Except.ok hs ∧
      hs.map Prod.fst = ["trino", "postgres", "redis", "minio"] ∧
      hs.lookup "trino" = some (tryCheck (Except.error "conn refused")) ∧
      hs.lookup "postgres" = some (tryCheck (Except.ok ())) ∧
      hs.lookup "redis" = some (tryCheck (Except.ok ())) ∧
      hs.lookup "minio" = some (tryCheck (Except.error "no bucket")) ∧
      (tryCheck (Except.error "conn refused" : Except String Unit) = true ↔
        (Except.error "conn refused" : Except String Unit) = Except.ok ()) ∧
      (tryCheck (Except.ok () : Except String Unit) = true ↔
        (Except.ok () : Except String Unit) = Except.ok ()) ∧
      (tryCheck (Except.ok () : Except String Unit) = true ↔
        (Except.ok () : Except String Unit) = Except.ok ()) ∧
      (tryCheck (Except.error "no bucket" : Except String Unit) = true ↔
        (Except.error "no bucket" : Except String Unit) = Except.ok ()) :=
  health_check_spec
    ⟨Except.error "conn refused", Except.ok (),
     Except.ok (), Except.error "no bucket"⟩

/-- Claim C6: run_analysis_queries issues exactly the six aggregation
queries (basic stats, revenue by category, regional performance,
monthly trend, top products, top customers), in that order, whatever
the outcome of each query block; a failing block only contributes an
error log line, and the function always returns normally (ok), never
propagating a query failure. -/
theorem run_analysis_queries_spec (table schema : String)
    (o : AnalysisOracle) :
    ∃ issued logs,
      run_analysis_queries table schema o = Except.ok (issued, logs) ∧
      issued =
        [statsQuery ("iceberg." ++ schema ++ "." ++ table),
         categoryQuery ("iceberg." ++ schema ++ "." ++ table),
         regionalQuery ("iceberg." ++ schema ++ "." ++ table),
         monthlyQuery ("iceberg." ++ schema ++ "." ++ table),
         productQuery ("iceberg." ++ schema ++ "." ++ table),
         customerQuery ("iceberg." ++ schema ++ "." ++ table)] ∧
      issued.length = 6 ∧
      (∀ e, o.q1 = Except.error e →
        ("Failed to get basic stats: " ++ e) ∈ logs) ∧
      (∀ e, o.q2 = Except.error e →
        ("Failed to get category analysis: " ++ e) ∈ logs) ∧
      (∀ e, o.q3 = Except.error e →
        ("Failed to get regional analysis: " ++ e) ∈ logs) ∧
      (∀ e, o.q4 = Except.error e →
        ("Failed to get monthly analysis: " ++ e) ∈ logs) ∧
      (∀ e, o.q5 = Except.error e →
        ("Failed to get product analysis: " ++ e) ∈ logs) ∧
      (∀ e, o.q6 = Except.error e →
        ("Failed to get customer analysis: " ++ e) ∈ logs) := by
  refine ⟨_, _, rfl, ?_, ?_, ?_, ?_, ?_, ?_, ?_, ?_⟩
  · simp [analysisBlock]
  · simp [analysisBlock]
  all_goals
    intro e he
    simp [analysisBlock, he]

/-- Witness for C6 with the category query failing and the others
succeeding. -/
theorem run_analysis_queries_spec_witness :
    ∃ issued logs,
      run_analysis_queries "ecommerce_orders" "sales"
        ⟨Except.ok (), Except.error "boom", Except.ok (),
         Except.ok (), Except.ok (), Except.ok ()⟩ =
        Except.ok (issued, logs) ∧
      issued =
        [statsQuery ("iceberg." ++ "sales" ++ "." ++ "ecommerce_orders"),
         categoryQuery ("iceberg." ++ "sales" ++ "." ++ "ecommerce_orders"),
         regionalQuery ("iceberg." ++ "sales" ++ "." ++ "ecommerce_orders"),
         monthlyQuery ("iceberg." ++ "sales" ++ "." ++ "ecommerce_orders"),
         productQuery ("iceberg." ++ "sales" ++ "." ++ "ecommerce_orders"),
         customerQuery ("iceberg." ++ "sales" ++ "." ++ "ecommerce_orders")] ∧
      issued.length = 6 ∧
      (∀ e, (Except.ok () : Except String Unit) = Except.error e →
        ("Failed to get basic stats: " ++ e) ∈ logs) ∧
      (∀ e, (Except.error "boom" : Except String Unit) = Except.error e →
        ("Failed to get category analysis: " ++ e) ∈ logs) ∧
      (∀ e, (Except.ok () : Except String Unit) = Except.error e →
        ("Failed to get regional analysis: " ++ e) ∈ logs) ∧
      (∀ e, (Except.ok () : Except String Unit) = Except.error e →
        ("Failed to get monthly analysis: " ++ e) ∈ logs) ∧
      (∀ e, (Except.ok () : Except String Unit) = Except.error e →
        ("Failed to get product analysis: " ++ e) ∈ logs) ∧
      (∀ e, (Except.ok () : Except String Unit) = Except.error e →
        ("Failed to get customer analysis: " ++ e) ∈ logs) :=
  run_analysis_queries_spec "ecommerce_orders" "sales"
    ⟨Except.ok (), Except.error "boom", Except.ok (),
     Except.ok (), Except.ok (), Except.ok ()⟩

/-- Claim C8 counterexample: with the source option supplied as csv and
the target option supplied as the empty string, both options are
supplied, yet the command takes the error path (Python truthiness
treats the empty string like a missing option): it prints the usage
error and exits with status 1, and does not print the chosen source
format. -/
theorem ingest_claim_counterexample :
    ingest (some "csv") (some "") =
      [CliEffect.print "Data Ingestion",
       CliEffect.print "Please specify both --source and --target",
       CliEffect.print "Example: lakehouse-ingest --source=csv --target=my_table",
       CliEffect.exit 1] ∧
    CliEffect.exit 1 ∈ ingest (some "csv") (some "") ∧
    CliEffect.print ("Source format: " ++ "csv") ∉
      ingest (some "csv") (some "") := by
  refine ⟨rfl, by decide, by decide⟩

/-- Claim C8 (amended): the ingest command is a stub.  When either
option is missing, or a supplied value is empty (Python truthiness),
it prints the usage error and exits with status 1; when both are
supplied and non-empty it prints the chosen source format, the target
table name and the not-yet-implemented notice and does not exit with an
error; in every case it makes no call to any external service
client. -/
theorem ingest_spec (source target : Option String) :
    (if pyFalsy source || pyFalsy target then
      CliEffect.print "Please specify both --source and --target" ∈
        ingest source target ∧
      CliEffect.exit 1 ∈ ingest source target ∧
      CliEffect.print "Ingestion functionality not yet implemented" ∉
        ingest source target
    else
      CliEffect.print ("Source format: " ++ source.getD "") ∈
        ingest source target ∧
      CliEffect.print ("Target table: " ++ target.getD "") ∈
        ingest source target ∧
      CliEffect.print "Ingestion functionality not yet implemented" ∈
        ingest source target ∧
      ∀ n, CliEffect.exit n ∉ ingest source target) ∧
    ∀ svc, CliEffect.clientCall svc ∉ ingest source target := by
  by_cases h : (pyFalsy source || pyFalsy target) = true
  · rw [if_pos h]
    refine ⟨⟨?_, ?_, ?_⟩, ?_⟩
    · simp [ingest, h]
    · simp [ingest, h]
    · simp [ingest, h]
    · intro svc
      simp [ingest, h]
  · have h2 : (pyFalsy source || pyFalsy target) = false := by
      revert h
      cases pyFalsy source || pyFalsy target <;> simp
    rw [if_neg (by simp [h2])]
    refine ⟨⟨?_, ?_, ?_, ?_⟩, ?_⟩
    · simp [ingest, h2]
    · simp [ingest, h2]
    · simp [ingest, h2]
    · intro n
      simp [ingest, h2]
    · intro svc
      simp [ingest, h2]

/-- Witness for C8 (amended) at source csv and target my_table. -/
theorem ingest_spec_witness :
    (if pyFalsy (some "csv") || pyFalsy (some "my_table") then
      CliEffect.print "Please specify both --source and --target" ∈
        ingest (some "csv") (some "my_table") ∧
      CliEffect.exit 1 ∈ ingest (some "csv") (some "my_table") ∧
      CliEffect.print "Ingestion functionality not yet implemented" ∉
        ingest (some "csv") (some "my_table")
    else
      CliEffect.print ("Source format: " ++ (some "csv").getD "") ∈
        ingest (some "csv") (some "my_table") ∧
      CliEffect.print ("Target table: " ++ (some "my_table").getD "") ∈
        ingest (some "csv") (some "my_table") ∧
      CliEffect.print "Ingestion functionality not yet implemented" ∈
        ingest (some "csv") (some "my_table") ∧
      ∀ n, CliEffect.exit n ∉ ingest (some "csv") (some "my_table")) ∧
    ∀ svc, CliEffect.clientCall svc ∉ ingest (some "csv") (some "my_table") :=
  ingest_spec (some "csv") (some "my_table")

/-- Claim C9: object_exists never raises; it returns true exactly when
stat_object on the resolved bucket succeeds and false whenever it
raises anything, while the other object-store operations (upload_file,
delete_object shown here) log and re-raise the same exception. -/
theorem object_exists_spec
    (stat : String → String → Except String Unit)
    (objectName : String) (bucket : Option String)
    (defaultBucket : String) :
    (∃ r, object_exists stat objectName bucket defaultBucket =
        Except.ok r ∧
      (r = true ↔
        stat (resolveBucket defaultBucket bucket) objectName =
          Except.ok ())) ∧
    (∀ e, stat (resolveBucket defaultBucket bucket) objectName =
        Except.error e →
      object_exists stat objectName bucket defaultBucket =
        Except.ok false) ∧
    (∀ (fput : String → String → String → Except String Unit)
        (filePath : String) (e : String),
      fput (resolveBucket defaultBucket bucket) objectName filePath =
          Except.error e →
        upload_file fput filePath objectName bucket defaultBucket =
          Except.error e) ∧
    (∀ (remove : String → String → Except String Unit) (e : String),
      remove (resolveBucket defaultBucket bucket) objectName =
          Except.error e →
        delete_object remove objectName bucket defaultBucket =
          Except.error e) := by
  refine ⟨?_, ?_, ?_, ?_⟩
  · cases hstat : stat (resolveBucket defaultBucket bucket) objectName with
    | ok u =>
      cases u
      exact ⟨true, by simp [object_exists, hstat], by simp [hstat]⟩
    | error e =>
      exact ⟨false, by simp [object_exists, hstat], by simp [hstat]⟩
  · intro e he
    simp [object_exists, he]
  · intro fput filePath e he
    simp [upload_file, he]
  · intro remove e he
    simp [delete_object, he]

/-- Witness for C9 with a stat oracle that always raises. -/
theorem object_exists_spec_witness :
    (∃ r, object_exists (fun _ _ => Except.error "NoSuchKey") "obj" none
        "warehouse" = Except.ok r ∧
      (r = true ↔
        (fun _ _ => (Except.error "NoSuchKey" : Except String Unit))
            (resolveBucket "warehouse" none) "obj" = Except.ok ())) ∧
    (∀ e, (fun _ _ => (Except.error "NoSuchKey" : Except String Unit))
        (resolveBucket "warehouse" none) "obj" = Except.error e →
      object_exists (fun _ _ => Except.error "NoSuchKey") "obj" none
        "warehouse" = Except.ok false) ∧
    (∀ (fput : String → String → String → Except String Unit)
        (filePath : String) (e : String),
      fput (resolveBucket "warehouse" none) "obj" filePath =
          Except.error e →
        upload_file fput filePath "obj" none "warehouse" =
          Except.error e) ∧
    (∀ (remove : String → String → Except String Unit) (e : String),
      remove (resolveBucket "warehouse" none) "obj" = Except.error e →
        delete_object remove "obj" none "warehouse" = Except.error e) :=
  object_exists_spec (fun _ _ => Except.error "NoSuchKey") "obj" none
    "warehouse"

/-- Claim C10: execute_insert commits exactly when the cursor work
succeeds; on any exception both execute_query and execute_insert roll
back (the rollback is the last connection action before the exception
is re-raised) and propagate the error; with a list of parameter tuples
the cursor work is a single executemany over the whole batch, still
under at most one commit. -/
theorem postgres_transaction_spec (q q2 : String) (params : PgParams)
    (f : Bool) :
    (PgAction.commit ∈ (execute_insert q params f).1 ↔ f = false) ∧
    (PgAction.rollback ∈ (execute_insert q params f).1 ↔ f = true) ∧
    ((execute_insert q params f).2 = Except.ok () ↔ f = false) ∧
    (execute_insert q params f).1.count PgAction.commit ≤ 1 ∧
    (∀ ts, params = PgParams.many ts →
      (execute_insert q params f).1.head? =
        some (PgAction.cursorExecuteMany q ts.length)) ∧
    (f = true →
      (execute_insert q params f).1.getLast? = some PgAction.rollback ∧
      (execute_insert q params f).2 = Except.error "insert failed") ∧
    (PgAction.rollback ∈ (execute_query q2 f).1 ↔ f = true) ∧
    ((execute_query q2 f).2 = Except.ok () ↔ f = false) ∧
    (f = true → (execute_query q2 f).2 = Except.error "query failed") := by
  cases f <;> cases params <;>
    simp [execute_insert, execute_query, List.count_cons]

/-- Witness for C10: a failing batch insert of two parameter tuples. -/
theorem postgres_transaction_spec_witness :
    (PgAction.commit ∈
        (execute_insert "INSERT" (PgParams.many [["a"], ["b"]]) true).1 ↔
      true = false) ∧
    (PgAction.rollback ∈
        (execute_insert "INSERT" (PgParams.many [["a"], ["b"]]) true).1 ↔
      true = true) ∧
    ((execute_insert "INSERT" (PgParams.many [["a"], ["b"]]) true).2 =
        Except.ok () ↔ true = false) ∧
    (execute_insert "INSERT" (PgParams.many [["a"], ["b"]]) true).1.count
        PgAction.commit ≤ 1 ∧
    (∀ ts, PgParams.many [["a"], ["b"]] = PgParams.many ts →
      (execute_insert "INSERT" (PgParams.many [["a"], ["b"]]) true).1.head? =
        some (PgAction.cursorExecuteMany "INSERT" ts.length)) ∧
    (true = true →
      (execute_insert "INSERT" (PgParams.many [["a"], ["b"]]) true).1.getLast? =
        some PgAction.rollback ∧
      (execute_insert "INSERT" (PgParams.many [["a"], ["b"]]) true).2 =
        Except.error "insert failed") ∧
    (PgAction.rollback ∈ (execute_query "SELECT 1" true).1 ↔ true = true) ∧
    ((execute_query "SELECT 1" true).2 = Except.ok () ↔ true = false) ∧
    (true = true →
      (execute_query "SELECT 1" true).2 = Except.error "query failed") :=
  postgres_transaction_spec "INSERT" "SELECT 1" (PgParams.many [["a"], ["b"]]) true

theorem svcField_set_self (s : ClientManagerState) (svc : Service)
    (v : Option PyClient) : svcField (setSvcField s svc v) svc = v := by
  cases svc <;> rfl

theorem svcField_set_other (s : ClientManagerState) (svc svc2 : Service)
    (v : Option PyClient) (h : svc2 ≠ svc) :
    svcField (setSvcField s svc v) svc2 = svcField s svc2 := by
  cases svc <;> cases svc2 <;> first | rfl | exact absurd rfl h

theorem svcField_setNextId (s : ClientManagerState) (n : Nat)
    (svc : Service) : svcField { s with nextId := n } svc = svcField s svc := by
  cases svc <;> rfl

theorem getClient_cached (s : ClientManagerState) (svc : Service)
    (c : PyClient) (h : svcField s svc = some c) :
    getClient s svc = (s, c.ctorId, false) := by
  simp [getClient, h]

theorem getClient_fresh (s : ClientManagerState) (svc : Service)
    (h : svcField s svc = none) :
    getClient s svc =
      ({ setSvcField s svc (some ⟨s.nextId, none⟩) with
          nextId := s.nextId + 1 },
       s.nextId, true) := by
  simp [getClient, h]

theorem svcField_getClient_other (s : ClientManagerState)
    (svc svc2 : Service) (h : svc ≠ svc2) :
    svcField (getClient s svc2).1 svc = svcField s svc := by
  cases hf : svcField s svc2 with
  | some c => rw [getClient_cached s svc2 c hf]
  | none =>
    rw [getClient_fresh s svc2 hf]
    show svcField { setSvcField s svc2 (some ⟨s.nextId, none⟩) with
        nextId := s.nextId + 1 } svc = svcField s svc
    rw [svcField_setNextId, svcField_set_other s svc2 svc _ h]

theorem run_cached (svc : Service) (c : PyClient) (ops : List MgrOp) :
    ∀ s : ClientManagerState, svcField s svc = some c →
    closeAllFree ops = true →
    (runConstructions s ops).count svc = 0 ∧
    runGetResults svc s ops =
      List.replicate (ops.count (MgrOp.get svc)) c.ctorId ∧
    svcField (runState s ops) svc = some c := by
  induction ops with
  | nil =>
    intro s h _
    simp [runConstructions, runGetResults, runState, h, List.count_nil]
  | cons op ops ih =>
    intro s h hfree
    have hfree1 : closeAllFree ops = true := by
      simp [closeAllFree, List.all_cons] at hfree ⊢
      exact hfree.2
    cases op with
    | closeAll a b =>
      simp [closeAllFree, List.all_cons] at hfree
    | get svc2 =>
      by_cases hsv : svc2 = svc
      · subst hsv
        have hstep : mgrStep s (MgrOp.get svc2) =
            (s, [], some (svc2, c.ctorId)) := by
          simp [mgrStep, getClient_cached s svc2 c h]
        obtain ⟨ih1, ih2, ih3⟩ := ih s h hfree1
        refine ⟨?_, ?_, ?_⟩
        · simp [runConstructions, hstep, ih1]
        · simp [runGetResults, hstep, ih2, List.count_cons,
            List.replicate_succ]
        · simp [runState, hstep, ih3]
      · have hpres : svcField (mgrStep s (MgrOp.get svc2)).1 svc =
            some c := by
          show svcField (getClient s svc2).1 svc = some c
          rw [svcField_getClient_other s svc svc2 (Ne.symm hsv), h]
        obtain ⟨ih1, ih2, ih3⟩ :=
          ih (mgrStep s (MgrOp.get svc2)).1 hpres hfree1
        refine ⟨?_, ?_, ?_⟩
        · rw [runConstructions]
          rw [List.count_append, ih1]
          show List.count svc (if (getClient s svc2).2.2
            then [svc2] else []) + 0 = 0
          cases (getClient s svc2).2.2 <;>
            simp [List.count_cons, List.count_nil, hsv]
        · rw [runGetResults]
          show (if svc2 = svc then [(getClient s svc2).2.1] else []) ++
            runGetResults svc (mgrStep s (MgrOp.get svc2)).1 ops = _
          rw [if_neg hsv, List.nil_append, ih2, List.count_cons]
          have : (MgrOp.get svc2 == MgrOp.get svc) = false := by
            simp [hsv]
          rw [this]
          simp
        · rw [runState]
          exact ih3

theorem run_fresh (svc : Service) (ops : List MgrOp) :
    ∀ s : ClientManagerState, svcField s svc = none →
    closeAllFree ops = true →
    (runConstructions s ops).count svc =
      (if MgrOp.get svc ∈ ops then 1 else 0) ∧
    (∃ cid, runGetResults svc s ops =
      List.replicate (ops.count (MgrOp.get svc)) cid) ∧
    (MgrOp.get svc ∉ ops → svcField (runState s ops) svc = none) := by
  induction ops with
  | nil =>
    intro s h _
    refine ⟨by simp [runConstructions], ⟨0, by simp [runGetResults]⟩,
      fun _ => by simp [runState, h]⟩
  | cons op ops ih =>
    intro s h hfree
    have hfree1 : closeAllFree ops = true := by
      simp [closeAllFree, List.all_cons] at hfree ⊢
      exact hfree.2
    cases op with
    | closeAll a b =>
      simp [closeAllFree, List.all_cons] at hfree
    | get svc2 =>
      by_cases hsv : svc2 = svc
      · subst hsv
        have hstep : mgrStep s (MgrOp.get svc2) =
            ({ setSvcField s svc2 (some ⟨s.nextId, none⟩) with
                nextId := s.nextId + 1 },
             [svc2], some (svc2, s.nextId)) := by
          simp [mgrStep, getClient_fresh s svc2 h]
        have hcached : svcField
            ({ setSvcField s svc2 (some ⟨s.nextId, none⟩) with
                nextId := s.nextId + 1 }) svc2 =
            some ⟨s.nextId, none⟩ := by
          rw [svcField_setNextId, svcField_set_self]
        obtain ⟨hc1, hc2, _⟩ :=
          run_cached svc2 ⟨s.nextId, none⟩ ops _ hcached hfree1
        refine ⟨?_, ⟨s.nextId, ?_⟩, ?_⟩
        · rw [runConstructions, hstep]
          simp only [List.count_append, hc1]
          simp [List.count_cons, List.mem_cons]
        · rw [runGetResults]
          show (if svc2 = svc2 then [(getClient s svc2).2.1] else []) ++
            runGetResults svc2 (mgrStep s (MgrOp.get svc2)).1 ops = _
          rw [if_pos rfl, hstep]
          simp only [hc2]
          rw [getClient_fresh s svc2 h]
          simp [List.count_cons, List.replicate_succ]
        · intro hmem
          exact absurd (List.mem_cons_self _ _) hmem
      · have hpres : svcField (mgrStep s (MgrOp.get svc2)).1 svc =
            none := by
          show svcField (getClient s svc2).1 svc = none
          rw [svcField_getClient_other s svc svc2 (Ne.symm hsv), h]
        obtain ⟨ih1, ⟨cid, ih2⟩, ih3⟩ :=
          ih (mgrStep s (MgrOp.get svc2)).1 hpres hfree1
        have hne : MgrOp.get svc ≠ MgrOp.get svc2 := by
          intro hx
          exact hsv (MgrOp.get.inj hx).symm
        refine ⟨?_, ⟨cid, ?_⟩, ?_⟩
        · rw [runConstructions, List.count_append, ih1]
          have hz : List.count svc
              ((mgrStep s (MgrOp.get svc2)).2.1) = 0 := by
            show List.count svc (if (getClient s svc2).2.2
              then [svc2] else []) = 0
            cases (getClient s svc2).2.2 <;>
              simp [List.count_cons, hsv]
          rw [hz, Nat.zero_add]
          congr 1
          simp [List.mem_cons, hne]
        · rw [runGetResults]
          show (if svc2 = svc then [(getClient s svc2).2.1] else []) ++
            runGetResults svc (mgrStep s (MgrOp.get svc2)).1 ops = _
          rw [if_neg hsv, List.nil_append, ih2, List.count_cons]
          have : (MgrOp.get svc2 == MgrOp.get svc) = false := by
            simp [hsv]
          rw [this]
          simp
        · intro hmem
          rw [runState]
          exact ih3 (fun hx => hmem (List.mem_cons_of_mem _ hx))

/-- Claim C5: for each of the four managed services, starting from any
manager state whose slot for that service is empty (as after
construction or close_all) and along any close_all-free operation
sequence: the number of client constructions for that service is one
if the property is accessed at all and zero otherwise (so never more
than one, and none before the first access); every access returns one
and the same client identity (the cached object); and if the property
is never accessed its slot stays empty. -/
theorem client_manager_lazy_spec (svc : Service)
    (s : ClientManagerState) (ops : List MgrOp)
    (hnone : svcField s svc = none)
    (hfree : closeAllFree ops = true) :
    (runConstructions s ops).count svc =
      (if MgrOp.get svc ∈ ops then 1 else 0) ∧
    (∃ cid, runGetResults svc s ops =
      List.replicate (ops.count (MgrOp.get svc)) cid) ∧
    (MgrOp.get svc ∉ ops → svcField (runState s ops) svc = none) :=
  run_fresh svc ops s hnone hfree

/-- Witness for C5: a fresh manager, with trino accessed twice and
postgres once. -/
theorem client_manager_lazy_spec_witness :
    svcField initManager Service.trino = none ∧
    closeAllFree [MgrOp.get Service.trino, MgrOp.get Service.trino,
      MgrOp.get Service.postgres] = true ∧
    ((runConstructions initManager
        [MgrOp.get Service.trino, MgrOp.get Service.trino,
         MgrOp.get Service.postgres]).count Service.trino =
      (if MgrOp.get Service.trino ∈
          [MgrOp.get Service.trino, MgrOp.get Service.trino,
           MgrOp.get Service.postgres] then 1 else 0) ∧
    (∃ cid, runGetResults Service.trino initManager
        [MgrOp.get Service.trino, MgrOp.get Service.trino,
         MgrOp.get Service.postgres] =
      List.replicate ([MgrOp.get Service.trino, MgrOp.get Service.trino,
        MgrOp.get Service.postgres].count
          (MgrOp.get Service.trino)) cid) ∧
    (MgrOp.get Service.trino ∉
        [MgrOp.get Service.trino, MgrOp.get Service.trino,
         MgrOp.get Service.postgres] →
      svcField (runState initManager
        [MgrOp.get Service.trino, MgrOp.get Service.trino,
         MgrOp.get Service.postgres]) Service.trino = none)) :=
  ⟨rfl, rfl,
   client_manager_lazy_spec Service.trino initManager
     [MgrOp.get Service.trino, MgrOp.get Service.trino,
      MgrOp.get Service.postgres] rfl rfl⟩

theorem clientClose_never_raises (c : PyClient) (fl : Bool) :
    ∃ out, clientClose c fl = Except.ok out := by
  obtain ⟨cid, conn⟩ := c
  cases conn <;> cases fl <;> simp [clientClose, connClose]

/-- Claim C7: close_all clears all four cached client slots, invokes
close() exactly on the Trino and PostgreSQL clients that were cached
(never on Redis or minio), and never raises, whatever the outcome of
the underlying connection closes, because TrinoClient.close and
PostgresClient.close swallow exceptions from the underlying close. -/
theorem close_all_spec (s : ClientManagerState) (tFail pFail : Bool) :
    (∃ s2 calls warns,
      close_all s tFail pFail = Except.ok (s2, calls, warns) ∧
      s2.trino = none ∧ s2.postgres = none ∧
      s2.redis = none ∧ s2.minio = none ∧
      calls = (if s.trino.isSome then [Service.trino] else []) ++
              (if s.postgres.isSome then [Service.postgres] else []) ∧
      Service.redis ∉ calls ∧ Service.minio ∉ calls) ∧
    (∀ c : PyClient, ∀ fl : Bool,
      ∃ out, clientClose c fl = Except.ok out) := by
  refine ⟨?_, clientClose_never_raises⟩
  obtain ⟨str, spg, sre, smi, snx⟩ := s
  cases str with
  | none =>
    cases spg with
    | none =>
      have heq : close_all ⟨none, none, sre, smi, snx⟩ tFail pFail =
          Except.ok (⟨none, none, none, none, snx⟩, [], []) := by
        simp [close_all, closeAllPg]
      exact ⟨_, _, _, heq, rfl, rfl, rfl, rfl, by simp, by simp, by simp⟩
    | some cp =>
      obtain ⟨out, hout⟩ := clientClose_never_raises cp pFail
      obtain ⟨cp2, w2⟩ := out
      have heq : close_all ⟨none, some cp, sre, smi, snx⟩ tFail pFail =
          Except.ok (⟨none, none, none, none, snx⟩,
            [Service.postgres], w2) := by
        simp [close_all, closeAllPg, hout]
      exact ⟨_, _, _, heq, rfl, rfl, rfl, rfl, by simp, by simp, by simp⟩
  | some ct =>
    obtain ⟨outT, houtT⟩ := clientClose_never_raises ct tFail
    obtain ⟨ct2, w1⟩ := outT
    cases spg with
    | none =>
      have heq : close_all ⟨some ct, none, sre, smi, snx⟩ tFail pFail =
          Except.ok (⟨none, none, none, none, snx⟩,
            [Service.trino], w1) := by
        simp [close_all, closeAllPg, houtT]
      exact ⟨_, _, _, heq, rfl, rfl, rfl, rfl, by simp, by simp, by simp⟩
    | some cp =>
      obtain ⟨outP, houtP⟩ := clientClose_never_raises cp pFail
      obtain ⟨cp2, w2⟩ := outP
      have heq : close_all ⟨some ct, some cp, sre, smi, snx⟩
          tFail pFail =
          Except.ok (⟨none, none, none, none, snx⟩,
            [Service.trino, Service.postgres], w1 ++ w2) := by
        simp [close_all, closeAllPg, houtT, houtP]
      exact ⟨_, _, _, heq, rfl, rfl, rfl, rfl, by simp, by simp, by simp⟩

/-- Witness for C7: a manager with cached Trino and PostgreSQL clients
whose underlying closes both fail. -/
theorem close_all_spec_witness :
    (∃ s2 calls warns,
      close_all ⟨some ⟨0, some 7⟩, some ⟨1, some 8⟩, none, none, 2⟩
          true true = Except.ok (s2, calls, warns) ∧
      s2.trino = none ∧ s2.postgres = none ∧
      s2.redis = none ∧ s2.minio = none ∧
      calls = (if (some (⟨0, some 7⟩ : PyClient)).isSome
                then [Service.trino] else []) ++
              (if (some (⟨1, some 8⟩ : PyClient)).isSome
                then [Service.postgres] else []) ∧
      Service.redis ∉ calls ∧ Service.minio ∉ calls) ∧
    (∀ c : PyClient, ∀ fl : Bool,
      ∃ out, clientClose c fl = Except.ok out) :=
  close_all_spec ⟨some ⟨0, some 7⟩, some ⟨1, some 8⟩, none, none, 2⟩
    true true

end Lakehouse
